import Mathlib

/-!
Verification model of the `ai_llm_query_understanding` service.

The definitions below are a shallow embedding of the repository's core pipeline:

* `json_loads`              — Python's `json.loads` (CPython `json/decoder.py` scanner),
                              specialised to the default arguments used by the app.
* `re_search_brace`         — the app's `re.search(r'(\x7b.*?\x7d)', text, re.DOTALL)`.
* `parse_llm_json`          — the three-stage parse cascade of
                              `llm_query_understand/api/app.py::parse_query`, lines 354-392.
* `ensure_required_fields`  — the field-filling loop, app.py lines 394-397.
* `handle_edge_cases`       — app.py lines 471-511.
* `ParsedQuery.ofPyVal`     — `ParsedQuery(**parsed_data)` (pydantic v2 validation).
* `QueryCache.*`            — `src/cache.py`.
* `parse_query`             — the `/parse` orchestrator, app.py lines 280-431, as a pure
                              state-passing function with an explicit model oracle.

Python values are modelled by `PyVal`; numbers keep their lexeme (no claim computes with
them, and JSON floats are otherwise outside the embedding).  Python strings holding lone
UTF-16 surrogates are not representable as Lean `Char`s; a lone surrogate escape decodes
to the replacement behaviour of `Char.ofNat` (this corner is hit by no claim).
-/

/-- A Python value as produced by `json.loads` and manipulated by the pipeline. -/
inductive PyVal where
  | null
  | bool (b : Bool)
  | num (lexeme : String)
  | str (s : String)
  | arr (xs : List PyVal)
  | dict (kvs : List (String × PyVal))

/-- The Python exceptions distinguished by the pipeline's `try/except` structure. -/
inductive PyExn where
  | jsonDecodeError (msg : String)
  | valueError (msg : String)
  | typeError (msg : String)
  | attributeError (msg : String)
  | validationError (msg : String)

/-- `str(e)` for the exceptions above. -/
def pyExnMessage : PyExn → String
  | .jsonDecodeError m => m
  | .valueError m => m
  | .typeError m => m
  | .attributeError m => m
  | .validationError m => m

/-- JSON whitespace, CPython `json.decoder.WHITESPACE_STR`. -/
def isJsonWs (c : Char) : Bool :=
  c == ' ' || c == '\t' || c == '\n' || c == '\r'

/-- Drop leading JSON whitespace. -/
def skipWs : List Char → List Char
  | [] => []
  | c :: rest => if isJsonWs c then skipWs rest else c :: rest

def isHexDigit (c : Char) : Bool :=
  c.isDigit || ('a' ≤ c && c ≤ 'f') || ('A' ≤ c && c ≤ 'F')

def hexVal (c : Char) : Nat :=
  if c.isDigit then c.toNat - 48
  else if 'a' ≤ c && c ≤ 'f' then c.toNat - 87
  else if 'A' ≤ c && c ≤ 'F' then c.toNat - 55
  else 0

/-- One shot of CPython `py_scanstring` (strict mode): the input starts just after the
opening quote; returns the decoded contents and the rest after the closing quote.
Surrogate pairs in tandem `\uXXXX` escapes are combined exactly as in CPython. -/
def scanStringChars : Nat → List Char → List Char → Except String (List Char × List Char)
  | 0, _, _ => .error "Unterminated string"
  | fuel + 1, acc, l =>
    match l with
    | [] => .error "Unterminated string"
    | c :: rest =>
      if c = '"' then .ok (acc.reverse, rest)
      else if c = '\\' then
        match rest with
        | [] => .error "Unterminated string"
        | e :: rest2 =>
          if e = 'u' then
            match rest2 with
            | h1 :: h2 :: h3 :: h4 :: rest3 =>
              if isHexDigit h1 && isHexDigit h2 && isHexDigit h3 && isHexDigit h4 then
                let n1 := hexVal h1 * 4096 + hexVal h2 * 256 + hexVal h3 * 16 + hexVal h4
                if 0xD800 ≤ n1 && n1 ≤ 0xDBFF then
                  match rest3 with
                  | b1 :: u2 :: g1 :: g2 :: g3 :: g4 :: rest4 =>
                    if b1 = '\\' && u2 = 'u' then
                      if isHexDigit g1 && isHexDigit g2 && isHexDigit g3 && isHexDigit g4 then
                        let n2 := hexVal g1 * 4096 + hexVal g2 * 256 + hexVal g3 * 16 + hexVal g4
                        if 0xDC00 ≤ n2 && n2 ≤ 0xDFFF then
                          scanStringChars fuel
                            (Char.ofNat (0x10000 + (n1 - 0xD800) * 1024 + (n2 - 0xDC00)) :: acc) rest4
                        else scanStringChars fuel (Char.ofNat n1 :: acc) rest3
                      else .error "Invalid \\uXXXX escape"
                    else scanStringChars fuel (Char.ofNat n1 :: acc) rest3
                  | _ => scanStringChars fuel (Char.ofNat n1 :: acc) rest3
                else scanStringChars fuel (Char.ofNat n1 :: acc) rest3
              else .error "Invalid \\uXXXX escape"
            | _ => .error "Invalid \\uXXXX escape"
          else if e = '"' then scanStringChars fuel ('"' :: acc) rest2
          else if e = '\\' then scanStringChars fuel ('\\' :: acc) rest2
          else if e = '/' then scanStringChars fuel ('/' :: acc) rest2
          else if e = 'b' then scanStringChars fuel ('\x08' :: acc) rest2
          else if e = 'f' then scanStringChars fuel ('\x0c' :: acc) rest2
          else if e = 'n' then scanStringChars fuel ('\n' :: acc) rest2
          else if e = 'r' then scanStringChars fuel ('\r' :: acc) rest2
          else if e = 't' then scanStringChars fuel ('\t' :: acc) rest2
          else .error "Invalid escape"
      else if c.toNat < 0x20 then .error "Invalid control character"
      else scanStringChars fuel (c :: acc) rest

/-- Longest run of decimal digits. -/
def takeDigits (l : List Char) : List Char × List Char :=
  match l with
  | [] => ([], [])
  | c :: rest =>
    if c.isDigit then
      let p := takeDigits rest
      (c :: p.1, p.2)
    else ([], c :: rest)

/-- The integer part of CPython `NUMBER_RE`: `0` or a nonzero digit followed by digits. -/
def scanIntDigits (l : List Char) : Option (List Char × List Char) :=
  match l with
  | [] => none
  | c :: rest =>
    if c = '0' then some ([c], rest)
    else if c.isDigit then
      let p := takeDigits rest
      some (c :: p.1, p.2)
    else none

/-- The optional fraction part `(\.\d+)?`. -/
def scanFrac (l : List Char) : List Char × List Char :=
  match l with
  | '.' :: c :: rest =>
    if c.isDigit then
      let p := takeDigits rest
      ('.' :: c :: p.1, p.2)
    else ([], '.' :: c :: rest)
  | _ => ([], l)

/-- The optional exponent part `([eE][-+]?\d+)?`. -/
def scanExp (l : List Char) : List Char × List Char :=
  match l with
  | [] => ([], [])
  | e :: rest =>
    if e = 'e' || e = 'E' then
      match rest with
      | [] => ([], [e])
      | s :: rest2 =>
        if s = '+' || s = '-' then
          match rest2 with
          | [] => ([], e :: [s])
          | d :: rest3 =>
            if d.isDigit then
              let p := takeDigits rest3
              (e :: s :: d :: p.1, p.2)
            else ([], e :: s :: d :: rest3)
        else if s.isDigit then
          let p := takeDigits rest2
          (e :: s :: p.1, p.2)
        else ([], e :: s :: rest2)
    else ([], e :: rest)

/-- CPython `NUMBER_RE.match`: the matched lexeme and the rest, or `none`. -/
def scanNumber (l : List Char) : Option (List Char × List Char) :=
  match l with
  | '-' :: rest =>
    match scanIntDigits rest with
    | some (ds, r1) =>
      let f := scanFrac r1
      let e := scanExp f.2
      some ('-' :: (ds ++ f.1 ++ e.1), e.2)
    | none => none
  | _ =>
    match scanIntDigits l with
    | some (ds, r1) =>
      let f := scanFrac r1
      let e := scanExp f.2
      some (ds ++ f.1 ++ e.1, e.2)
    | none => none

/-- Replace-on-collision insertion, Python `d[k] = v` on an insertion-ordered dict. -/
def insertReplace {α : Type} : List (String × α) → String → α → List (String × α)
  | [], k, v => [(k, v)]
  | (k0, v0) :: rest, k, v =>
    if k0 = k then (k0, v) :: rest else (k0, v0) :: insertReplace rest k v

/-- `dict(pairs)` from an ordered pair list (duplicate keys: last value wins, first slot). -/
def buildDict (pairs : List (String × PyVal)) : List (String × PyVal) :=
  pairs.foldl (fun d kv => insertReplace d kv.1 kv.2) []

/-- The scanner's mutually recursive entry points, merged into one fuel-indexed function
so that every recursive call is structural on the fuel (CPython `py_make_scanner`:
`_scan_once`, `JSONObject`, `JSONArray`). -/
inductive JTask where
  | value
  | objectBody (first : Bool) (acc : List (String × PyVal))
  | arrayBody (first : Bool) (acc : List PyVal)

def jsonRun : Nat → JTask → List Char → Except String (PyVal × List Char)
  | 0, _, _ => .error "Recursion limit exceeded"
  | fuel + 1, .value, l =>
    match l with
    | [] => .error "Expecting value"
    | c :: rest =>
      if c = '{' then jsonRun fuel (.objectBody true []) rest
      else if c = '[' then jsonRun fuel (.arrayBody true []) rest
      else if c = '"' then
        match scanStringChars (rest.length + 1) [] rest with
        | .ok (cs, r) => .ok (.str (String.mk cs), r)
        | .error e => .error e
      else if c = 'n' then
        match rest with
        | 'u' :: 'l' :: 'l' :: r => .ok (.null, r)
        | _ => .error "Expecting value"
      else if c = 't' then
        match rest with
        | 'r' :: 'u' :: 'e' :: r => .ok (.bool true, r)
        | _ => .error "Expecting value"
      else if c = 'f' then
        match rest with
        | 'a' :: 'l' :: 's' :: 'e' :: r => .ok (.bool false, r)
        | _ => .error "Expecting value"
      else
        match scanNumber (c :: rest) with
        | some (lex, r) => .ok (.num (String.mk lex), r)
        | none =>
          if c = 'N' then
            match rest with
            | 'a' :: 'N' :: r => .ok (.num "NaN", r)
            | _ => .error "Expecting value"
          else if c = 'I' then
            match rest with
            | 'n' :: 'f' :: 'i' :: 'n' :: 'i' :: 't' :: 'y' :: r => .ok (.num "Infinity", r)
            | _ => .error "Expecting value"
          else if c = '-' then
            match rest with
            | 'I' :: 'n' :: 'f' :: 'i' :: 'n' :: 'i' :: 't' :: 'y' :: r =>
              .ok (.num "-Infinity", r)
            | _ => .error "Expecting value"
          else .error "Expecting value"
  | fuel + 1, .objectBody first acc, l =>
    match skipWs l with
    | [] => .error "Expecting property name enclosed in double quotes"
    | c :: rest =>
      if c = '}' then
        if first then .ok (.dict (buildDict acc), rest)
        else .error "Expecting property name enclosed in double quotes"
      else if c = '"' then
        match scanStringChars (rest.length + 1) [] rest with
        | .error e => .error e
        | .ok (keyChars, r1) =>
          match skipWs r1 with
          | ':' :: r3 =>
            match jsonRun fuel .value (skipWs r3) with
            | .error e => .error e
            | .ok (v, r5) =>
              match skipWs r5 with
              | '}' :: r7 => .ok (.dict (buildDict (acc ++ [(String.mk keyChars, v)])), r7)
              | ',' :: r7 => jsonRun fuel (.objectBody false (acc ++ [(String.mk keyChars, v)])) r7
              | _ => .error "Expecting delimiter"
          | _ => .error "Expecting colon delimiter"
      else .error "Expecting property name enclosed in double quotes"
  | fuel + 1, .arrayBody first acc, l =>
    match skipWs l with
    | [] => .error "Expecting value"
    | c :: rest =>
      if first && c = ']' then .ok (.arr [], rest)
      else
        match jsonRun fuel .value (c :: rest) with
        | .error e => .error e
        | .ok (v, r1) =>
          match skipWs r1 with
          | ']' :: r3 => .ok (.arr (acc ++ [v]), r3)
          | ',' :: r3 => jsonRun fuel (.arrayBody false (acc ++ [v])) r3
          | _ => .error "Expecting delimiter"

/-- `json.loads` on a char list: scan one value between optional whitespace, reject
trailing non-whitespace (CPython `JSONDecoder.decode`, the "Extra data" check). -/
def json_loads_list (l : List Char) : Except String PyVal :=
  match jsonRun (2 * l.length + 8) .value (skipWs l) with
  | .error e => .error e
  | .ok (v, rest) =>
    match skipWs rest with
    | [] => .ok v
    | _ => .error "Extra data"

/-- Python `json.loads` with default arguments. -/
def json_loads (s : String) : Except String PyVal :=
  json_loads_list s.data

/-- Position of the app's `re.search(r'(\x7b.*?\x7d)', text, re.DOTALL)`: everything after
the first opening brace. -/
def afterBrace : List Char → Option (List Char)
  | [] => none
  | c :: rest => if c = '{' then some rest else afterBrace rest

/-- The shortest run up to (excluding) the next closing brace. -/
def upToClose : List Char → Option (List Char)
  | [] => none
  | c :: rest => if c = '}' then some [] else (upToClose rest).map (fun m => c :: m)

/-- The matched group of `re.search(r'(\x7b.*?\x7d)', text, re.DOTALL)`: the leftmost
position where a match can start is the first opening brace, and the non-greedy `.*?`
(with `.` matching newlines under DOTALL) extends to the earliest closing brace after it. -/
def extractBraceList (l : List Char) : Option (List Char) :=
  (afterBrace l).bind (fun r => (upToClose r).map (fun m => '{' :: (m ++ ['}'])))

/-- String-level wrapper for the bracket-scan regex search. -/
def re_search_brace (s : String) : Option String :=
  (extractBraceList s.data).map String.mk

/-- `text.replace("'", '"')` from app.py line 379. -/
def replaceSingleQuotes (l : List Char) : List Char :=
  l.map (fun c => if c = '\x27' then '"' else c)

def isPyRegexSpace (c : Char) : Bool :=
  c == ' ' || c == '\t' || c == '\n' || c == '\r' || c == '\x0b' || c == '\x0c'

def isWordChar (c : Char) : Bool :=
  c.isAlphanum || c == '_'

/-- Longest run of characters satisfying `p`. -/
def spanChars (p : Char → Bool) : List Char → List Char × List Char
  | [] => ([], [])
  | c :: rest =>
    if p c then
      let q := spanChars p rest
      (c :: q.1, q.2)
    else ([], c :: rest)

/-- After a `[\x7b,]` character, try to match `\s*([a-zA-Z0-9_]+)\s*:`; on success return
the replacement tail (whitespace, quoted key, colon; the second `\s*` is dropped, exactly
as the substitution `\1"\2":` does) and the rest after the colon. -/
def tryKeyMatch (l : List Char) : Option (List Char × List Char) :=
  let p1 := spanChars isPyRegexSpace l
  let p2 := spanChars isWordChar p1.2
  if p2.1.isEmpty then none
  else
    let p3 := spanChars isPyRegexSpace p2.2
    match p3.2 with
    | ':' :: r4 => some (p1.1 ++ '"' :: (p2.1 ++ '"' :: ':' :: []), r4)
    | _ => none

/-- `re.sub(r'([\x7b,]\s*)([a-zA-Z0-9_]+)\s*:', r'\1"\2":', text)` from app.py line 381:
left-to-right, non-overlapping, resuming after each match. -/
def fixKeys : Nat → List Char → List Char
  | 0, l => l
  | fuel + 1, l =>
    match l with
    | [] => []
    | c :: rest =>
      if c = '{' || c = ',' then
        match tryKeyMatch rest with
        | some (rep, r) => c :: (rep ++ fixKeys fuel r)
        | none => c :: fixKeys fuel rest
      else c :: fixKeys fuel rest

/-- The "fix common JSON formatting issues" repair of app.py lines 378-381. -/
def repairText (l : List Char) : List Char :=
  let q := replaceSingleQuotes l
  fixKeys q.length q

/-- The minimal fallback record of app.py lines 389 and 392. -/
def emptyRecord : PyVal :=
  .dict [("item_type", .null), ("material", .null), ("color", .null)]

/-- Third parsing attempt, app.py lines 374-392: repair, bracket-scan again, and on any
failure inside this stage fall back to the minimal record (the handlers at lines 387-392
absorb everything). -/
def fix_stage (response_text : String) : Except PyExn PyVal :=
  let fixed_text := String.mk (repairText response_text.data)
  match re_search_brace fixed_text with
  | some s =>
    match json_loads s with
    | .ok v => .ok v
    | .error _ => .ok emptyRecord
  | none => .ok emptyRecord

/-- The three-stage parse cascade of app.py lines 354-392.  Stage 1: whole-text
`json.loads`; on `JSONDecodeError`, stage 2: bracket-scan extraction and parse; if the
scan finds no match the code raises `ValueError("No JSON object found in response")`,
which the `except (json.JSONDecodeError, AttributeError)` clause at line 372 does NOT
catch (a bare `ValueError` is a superclass, not a subclass, of `JSONDecodeError`), so it
propagates out of the cascade; if stage 2's parse fails with `JSONDecodeError`, stage 3
(`fix_stage`) runs. -/
def parse_llm_json (response_text : String) : Except PyExn PyVal :=
  match json_loads response_text with
  | .ok v => .ok v
  | .error _ =>
    match re_search_brace response_text with
    | some json_str =>
      match json_loads json_str with
      | .ok v => .ok v
      | .error _ => fix_stage response_text
    | none => .error (.valueError "No JSON object found in response")

/-- Python `needle in hay` for strings, on char lists. -/
def listPrefixEq : List Char → List Char → Bool
  | [], _ => true
  | _ :: _, [] => false
  | a :: as, b :: bs => a == b && listPrefixEq as bs

def listInfixOf (needle : List Char) : List Char → Bool
  | [] => needle.isEmpty
  | c :: rest => listPrefixEq needle (c :: rest) || listInfixOf needle rest

/-- Python `needle in hay` (substring containment). -/
def pyIn (needle hay : String) : Bool :=
  listInfixOf needle.data hay.data

/-- Python `str.lower()` (ASCII range; the queries and patterns involved are ASCII). -/
def pyLower (s : String) : String :=
  String.mk (s.data.map Char.toLower)

/-- Python `"x" == v` between a string and an arbitrary value: equal only to an equal
string. -/
def pyValEqStr (k : String) : PyVal → Bool
  | .str t => k == t
  | _ => false

/-- `dict.get(k)`: the stored value, or `None` when the key is absent. -/
def pyDictGet (kvs : List (String × PyVal)) (k : String) : PyVal :=
  match kvs.find? (fun kv => kv.1 == k) with
  | some kv => kv.2
  | none => .null

/-- Python `field in parsed_data`: key lookup on dicts, element equality on lists,
substring test on strings, `TypeError` on non-iterables. -/
def pyContains (v : PyVal) (field : String) : Except PyExn Bool :=
  match v with
  | .dict kvs => .ok (kvs.any (fun kv => kv.1 == field))
  | .arr xs => .ok (xs.any (pyValEqStr field))
  | .str s => .ok (pyIn field s)
  | _ => .error (.typeError "argument of type is not iterable")

/-- Python `parsed_data[field] = None`: insertion on dicts, `TypeError` otherwise. -/
def pySetItem (v : PyVal) (field : String) (value : PyVal) : Except PyExn PyVal :=
  match v with
  | .dict kvs => .ok (.dict (insertReplace kvs field value))
  | .arr _ => .error (.typeError "list indices must be integers or slices, not str")
  | .str _ => .error (.typeError "str object does not support item assignment")
  | _ => .error (.typeError "object does not support item assignment")

/-- One iteration of the field-filling loop, app.py lines 395-397. -/
def ensure_field (pd : PyVal) (field : String) : Except PyExn PyVal := do
  let present ← pyContains pd field
  if present then pure pd else pySetItem pd field .null

/-- The field-filling loop of app.py lines 394-397: for each of the three canonical
fields, add it with value `None` when missing. -/
def ensure_required_fields (pd : PyVal) : Except PyExn PyVal :=
  ["item_type", "material", "color"].foldlM ensure_field pd

/-- The parse cascade followed by the field-filling loop (app.py lines 354-397). -/
def parse_and_normalize (response_text : String) : Except PyExn PyVal :=
  parse_llm_json response_text >>= ensure_required_fields

/-- `parsed_response.get("color")`, which raises `AttributeError` when the parsed value
is not a dict. -/
def pyGetAttrGet (v : PyVal) (k : String) : Except PyExn PyVal :=
  match v with
  | .dict kvs => .ok (pyDictGet kvs k)
  | _ => .error (.attributeError "object has no attribute get")

/-- `handle_edge_cases` from app.py lines 471-511: three substring rules over the
lowercased original query, checked in order, first match wins. -/
def handle_edge_cases (query : String) (parsed_response : PyVal) : Except PyExn PyVal :=
  let query_lower := pyLower query
  if pyIn "gold metal accent table" query_lower then
    .ok (.dict [("item_type", .str "accent table"), ("material", .str "metal"),
                ("color", .str "gold")])
  else if pyIn "shelving unit" query_lower && pyIn "glass" query_lower then
    (pyGetAttrGet parsed_response "color").map (fun c =>
      .dict [("item_type", .str "shelving unit"), ("material", .str "glass"), ("color", c)])
  else if pyIn "amber" query_lower && pyIn "glass" query_lower &&
      pyIn "cabinet" query_lower then
    .ok (.dict [("item_type", .str "display cabinet"), ("material", .str "glass"),
                ("color", .str "amber")])
  else .ok parsed_response

/-- The canonical three-field record (the pydantic `ParsedQuery` model). -/
structure ParsedQuery where
  item_type : Option String
  material : Option String
  color : Option String

/-- pydantic v2 validation of an `Optional[str]` field: `None` and strings pass,
everything else is a validation error (no int/bool/float coercion to str in v2). -/
def pydanticOptStr (v : PyVal) : Except PyExn (Option String) :=
  match v with
  | .null => .ok none
  | .str s => .ok (some s)
  | _ => .error (.validationError "Input should be a valid string")

/-- `ParsedQuery(**parsed_data)`: keyword expansion requires a mapping; pydantic drops
keys outside the model's three fields, defaults absent fields to `None`, and validates
each present value. -/
def ParsedQuery.ofPyVal (v : PyVal) : Except PyExn ParsedQuery :=
  match v with
  | .dict kvs => do
    let it ← pydanticOptStr (pyDictGet kvs "item_type")
    let mat ← pydanticOptStr (pyDictGet kvs "material")
    let col ← pydanticOptStr (pyDictGet kvs "color")
    .ok ⟨it, mat, col⟩
  | _ => .error (.typeError "argument after must be a mapping")

/-- The prefix of `FURNITURE_PROMPT` (app.py lines 121-139) before the opening brace of
the first example object. -/
def promptPre : String :=
  "\nParse this furniture query exactly as described:\n\nEXACT QUERY MATCHES FIRST:\n- If query is \"glass display shelving unit with metal frame\" RETURN "

/-- The body of the first example JSON object embedded in `FURNITURE_PROMPT`
(between its braces). -/
def firstExampleBody : String :=
  "\"item_type\": \"shelving unit\", \"material\": \"glass\", \"color\": null"

/-- The rest of `FURNITURE_PROMPT` after the first example object's closing brace. -/
def promptRest : String :=
  "\n- If query is \"gold metal accent table\" RETURN \x7b\"item_type\": \"accent table\", \"material\": \"metal\", \"color\": \"gold\"\x7d\n- If query is \"amber glass cabinet for display\" RETURN \x7b\"item_type\": \"display cabinet\", \"material\": \"glass\", \"color\": \"amber\"\x7d\n\nGENERAL RULES (only if no exact match above):\n1. IMPORTANT: If query contains phrase \"shelving unit\" → item_type = \"shelving unit\"\n2. IMPORTANT: If query contains phrase \"accent table\" → item_type = \"accent table\"\n3. If query contains \"metal\" → material = \"metal\"\n4. If query contains \"glass\" → material = \"glass\"\n5. If query contains \"wooden\" or \"wood\" → material = \"wooden\"\n6. If query contains \"gold\" AND \"metal\" → color = \"gold\", material = \"metal\"\n7. If query contains \"amber\" AND \"glass\" → color = \"amber\", material = \"glass\"\n\nOutput format: Valid JSON with fields \"item_type\", \"material\", and \"color\". Use null for missing properties.\n"

/-- `FURNITURE_PROMPT`, app.py lines 121-139, verbatim (braces of the first example
object split out for use in the proofs; the concatenation reproduces the Python literal
character for character). -/
def FURNITURE_PROMPT : String :=
  promptPre ++ "\x7b" ++ firstExampleBody ++ "\x7d" ++ promptRest

/-- `f"\x7bFURNITURE_PROMPT\x7d\n\nQuery: \"\x7bquery\x7d\""` from app.py line 347. -/
def combined_prompt (query : String) : String :=
  FURNITURE_PROMPT ++ "\n\nQuery: \"" ++ query ++ "\""

/-- Shallow model of `LargeLanguageModel.generate` (core/llm.py lines 81-160): the
method decodes the prompt tokens together with the newly generated tokens
(`outputs[0] = input_ids ++ generated`, line 156), so the returned text is the prompt
followed by the generated continuation, the continuation being arbitrary (sampling is
enabled).  The tokenizer round trip is assumed faithful. -/
def generate_response (prompt continuation : String) : String :=
  prompt ++ continuation

/-- Python `str.strip()` whitespace (ASCII range). -/
def isPyStripSpace (c : Char) : Bool :=
  c == ' ' || c == '\t' || c == '\n' || c == '\r' || c == '\x0b' || c == '\x0c'

/-- Python `str.strip()`. -/
def pyStrip (s : String) : String :=
  String.mk (((s.data.dropWhile isPyStripSpace).reverse.dropWhile isPyStripSpace).reverse)

/-- First value stored under a key. -/
def lookupKV {α : Type} : List (String × α) → String → Option α
  | [], _ => none
  | (k0, v) :: rest, k => if k0 = k then some v else lookupKV rest k

/-- The response payload assembled by the `/parse` endpoint (`QueryResponse`, app.py
lines 94-118).  `generation_time` is an abstract duration supplied by the model oracle;
the wall-clock fields `total_time` and `cache_lookup_time` are real-time measurements
and are not modelled. -/
structure QueryResponse where
  generation_time : Nat
  parsed_query : ParsedQuery
  query : String
  cached : Bool

/-- The `QueryCache` of src/cache.py: a Redis-enabled flag and, when enabled, a
key-value store holding the serialized payload and its expiry.  Redis/network failures
are absorbed by the class into `None`/`False`; the store itself is modelled error-free. -/
structure QueryCache where
  redis_enabled : Bool
  store : List (String × (QueryResponse × Nat))

/-- `QueryCache.__init__` (cache.py lines 16-52): enabled iff the `REDIS_ENABLED`
environment value (default "false") lowercases to "true" and the connection attempt
succeeds (`connectOk`); a failed connection disables caching. -/
def QueryCache.init (env : String → Option String) (connectOk : Bool) : QueryCache :=
  if pyLower ((env "REDIS_ENABLED").getD "false") = "true" then
    { redis_enabled := connectOk, store := [] }
  else
    { redis_enabled := false, store := [] }

/-- `QueryCache.get` (cache.py lines 54-87): `None` when disabled, else lookup under the
key `"query:" ++ query`. -/
def QueryCache.get (self : QueryCache) (query : String) : Option QueryResponse :=
  if self.redis_enabled then (lookupKV self.store ("query:" ++ query)).map Prod.fst
  else none

/-- `QueryCache.set` (cache.py lines 89-125): `False` and no write when disabled, else
store under `"query:" ++ query` with the expiry and return `True`. -/
def QueryCache.set (self : QueryCache) (query : String) (result : QueryResponse)
    (expiry : Nat) : Bool × QueryCache :=
  if self.redis_enabled then
    (true, { self with store := insertReplace self.store ("query:" ++ query) (result, expiry) })
  else (false, self)

/-- The process-wide mutable state touched by the `/parse` endpoint: the cache and the
lazily created model handle. -/
structure AppState where
  cache : QueryCache
  llm_loaded : Bool

/-- The HTTP-visible outcome of one `/parse` request: a payload, an
`HTTPException(400, ...)` or an `HTTPException(500, ...)`. -/
inductive Outcome where
  | ok (resp : QueryResponse)
  | clientError (detail : String)
  | serverError (detail : String)

/-- How many cache reads (`cache.get` calls), cache writes (`cache.set` calls) and model
invocations (`llm.generate` calls) one request performed. -/
structure EffectCount where
  cache_reads : Nat
  cache_writes : Nat
  model_calls : Nat

/-- The model collaborator: a deterministic text-generation oracle mapping a prompt to
the generated response text and its generation time, or raising. -/
def Model : Type := String → Except String (String × Nat)

/-- The miss-path processing of one response text: cascade, field fill, edge cases,
pydantic validation (app.py lines 354-406). -/
def pipeline_after_generate (query response_text : String) : Except PyExn ParsedQuery :=
  (parse_and_normalize response_text >>= handle_edge_cases query) >>= ParsedQuery.ofPyVal

/-- The `/parse` orchestrator (`parse_query`, app.py lines 280-431) as a pure function:
trim and reject empty queries (400), one cache read, on a hit replay the cached payload
with `cached := true` and the cached generation time, on a miss lazily load the model,
invoke it once on the combined prompt, run cascade → field fill → edge cases → pydantic
validation, and on success perform one cache write (expiry 3600) and return the payload;
any exception raised on the miss path surfaces as a 500 carrying the original message
(the `except` at line 426), with no cache write. -/
def parse_query (model : Model) (st : AppState) (raw_query : String) :
    Outcome × AppState × EffectCount :=
  let query := pyStrip raw_query
  if query = "" then
    (.clientError "Query cannot be empty", st, ⟨0, 0, 0⟩)
  else
    match QueryCache.get st.cache query with
    | some cached =>
      (.ok { generation_time := cached.generation_time, parsed_query := cached.parsed_query,
             query := query, cached := true }, st, ⟨1, 0, 0⟩)
    | none =>
      let st1 : AppState := { st with llm_loaded := true }
      match model (combined_prompt query) with
      | .error e => (.serverError ("Error processing query: " ++ e), st1, ⟨1, 0, 1⟩)
      | .ok (response_text, gen_time) =>
        match pipeline_after_generate query response_text with
        | .error e =>
          (.serverError ("Error processing query: " ++ pyExnMessage e), st1, ⟨1, 0, 1⟩)
        | .ok parsed =>
          let result : QueryResponse :=
            { generation_time := gen_time, parsed_query := parsed, query := query,
              cached := false }
          let c2 := (QueryCache.set st1.cache query result 3600).2
          (.ok result, { st1 with cache := c2 }, ⟨1, 1, 1⟩)

/-- The response text of claim C7. -/
def c7text : String := "noise noise \x7b\"item_type\": \"chair\"\x7d trailing noise"

/-- The response text of claim C8. -/
def c8text : String := "\x7bitem_type: \x27sofa\x27, color: \x27red\x27\x7d"

/-- A deterministic model oracle that always answers with a clean JSON object. -/
def demoModel : Model :=
  fun _ => .ok ("\x7b\"item_type\": \"chair\", \"material\": null, \"color\": null\x7d", 7)

/-- A model oracle whose invocation raises. -/
def failingModel : Model := fun _ => .error "CUDA out of memory"

/-- The app state under the default configuration: `REDIS_ENABLED` unset, so the cache
constructed by `QueryCache()` at app.py line 61 is disabled; no model loaded yet. -/
def defaultEnvState : AppState := ⟨QueryCache.init (fun _ => none) true, false⟩

/-- An app state whose cache is enabled and empty. -/
def enabledEmptyState : AppState := ⟨{ redis_enabled := true, store := [] }, false⟩

theorem json_loads_list_startP (l : List Char) :
    json_loads_list ('\n' :: 'P' :: l) = .error "Expecting value" := rfl

theorem afterBrace_append_cons (xs ys : List Char) (h : '{' ∉ xs) :
    afterBrace (xs ++ '{' :: ys) = some ys := by
  induction xs with
  | nil => simp [afterBrace]
  | cons c cs ih =>
    simp only [List.mem_cons, not_or] at h
    simp only [List.cons_append, afterBrace, List.append_eq]
    rw [if_neg (fun hc => h.1 hc.symm)]
    exact ih h.2

theorem upToClose_append_cons (xs ys : List Char) (h : '}' ∉ xs) :
    upToClose (xs ++ '}' :: ys) = some xs := by
  induction xs with
  | nil => simp [upToClose]
  | cons c cs ih =>
    simp only [List.mem_cons, not_or] at h
    simp only [List.cons_append, upToClose, List.append_eq]
    rw [if_neg (fun hc => h.1 hc.symm), ih h.2]
    rfl

theorem lookupKV_insertReplace {α : Type} (kvs : List (String × α)) (k : String) (v : α) :
    lookupKV (insertReplace kvs k v) k = some v := by
  induction kvs with
  | nil => simp [insertReplace, lookupKV]
  | cons kv rest ih =>
    by_cases hk : kv.1 = k
    · simp [insertReplace, hk, lookupKV]
    · simp [insertReplace, hk, lookupKV, ih]

/-- Claim C1 (code bug): the parse cascade is NOT total.  On model output with no brace
pair at all (for example `"hello world"`), stage 1 fails, stage 2's scan finds no match
and the code raises `ValueError("No JSON object found in response")` (app.py line 371),
which the handler `except (json.JSONDecodeError, AttributeError)` at line 372 does not
catch — `ValueError` is the superclass of `JSONDecodeError` — so the request errors
instead of producing the fallback record.  And when the whole text parses as a JSON
array or scalar, the stage-1 result is kept and the field-filling loop raises
`TypeError` instead of treating the stage as failed.  Both contradict the claim's
"returns a well-formed record without raising". -/
theorem c1_cascade_raises_on_unparseable_output :
    parse_and_normalize "hello world" =
      .error (.valueError "No JSON object found in response") ∧
    parse_and_normalize "[1, 2, 3]" =
      .error (.typeError "list indices must be integers or slices, not str") :=
  ⟨rfl, rfl⟩

/-- Claim C2: whenever the lowercased original query contains the substring
"gold metal accent table", `handle_edge_cases` returns exactly the full override record,
for every parser output value (the first rule fires before the parser output is ever
inspected). -/
theorem c2_gold_metal_accent_table_full_override (query : String) (parsed_response : PyVal)
    (h : pyIn "gold metal accent table" (pyLower query) = true) :
    handle_edge_cases query parsed_response =
      .ok (.dict [("item_type", .str "accent table"), ("material", .str "metal"),
                  ("color", .str "gold")]) := by
  simp [handle_edge_cases, h]

/-- Witness for C2 at the spec's example query. -/
theorem c2_gold_metal_accent_table_full_override_witness :
    pyIn "gold metal accent table" (pyLower "I want a Gold Metal Accent Table please") = true ∧
    handle_edge_cases "I want a Gold Metal Accent Table please"
        (.dict [("item_type", .str "sofa")]) =
      .ok (.dict [("item_type", .str "accent table"), ("material", .str "metal"),
                  ("color", .str "gold")]) :=
  ⟨by decide, c2_gold_metal_accent_table_full_override _ _ (by decide)⟩

/-- Claim C3: when the lowercased query contains "shelving unit" and "glass" but not
"gold metal accent table" (so rule 1 does not fire first), `handle_edge_cases` overrides
item type and material and preserves the parser's color; the hypothesis ordering shows
the second rule wins even when the third rule's predicate also matches, because the
rules are an ordered if/elif chain. -/
theorem c3_glass_shelving_unit_partial_override (query : String)
    (kvs : List (String × PyVal))
    (h0 : pyIn "gold metal accent table" (pyLower query) = false)
    (h1 : pyIn "shelving unit" (pyLower query) = true)
    (h2 : pyIn "glass" (pyLower query) = true) :
    handle_edge_cases query (.dict kvs) =
      .ok (.dict [("item_type", .str "shelving unit"), ("material", .str "glass"),
                  ("color", pyDictGet kvs "color")]) := by
  simp [handle_edge_cases, h0, h1, h2, pyGetAttrGet]
  rfl

/-- Witness for C3 at the spec's example: color "silver" is preserved. -/
theorem c3_glass_shelving_unit_partial_override_witness :
    pyIn "gold metal accent table" (pyLower "glass shelving unit") = false ∧
    handle_edge_cases "glass shelving unit"
        (.dict [("item_type", .str "x"), ("material", .str "y"), ("color", .str "silver")]) =
      .ok (.dict [("item_type", .str "shelving unit"), ("material", .str "glass"),
                  ("color", .str "silver")]) :=
  ⟨by decide, c3_glass_shelving_unit_partial_override "glass shelving unit"
    [("item_type", .str "x"), ("material", .str "y"), ("color", .str "silver")]
    (by decide) (by decide) (by decide)⟩

/-- Counterexample to claim C4 as stated: under the repository's default configuration
(`REDIS_ENABLED` unset), the cache is disabled, so calling the orchestrator twice with
the identical trimmed query and a deterministic model invokes the model on BOTH calls
(one invocation per call, two across the two calls) and the second response carries
`cached = false`, not `cached = true`. -/
theorem c4_default_config_counterexample :
    (parse_query demoModel defaultEnvState "wooden chair").2.2.model_calls = 1 ∧
    (parse_query demoModel
      ((parse_query demoModel defaultEnvState "wooden chair").2.1)
      "wooden chair").2.2.model_calls = 1 ∧
    (parse_query demoModel
      ((parse_query demoModel defaultEnvState "wooden chair").2.1) "wooden chair").1 =
      .ok ⟨7, ⟨some "chair", none, none⟩, "wooden chair", false⟩ :=
  ⟨rfl, rfl, rfl⟩

/-- Claim C4 (amended): provided the cache is enabled and the miss-path processing of
the deterministic model's output succeeds, two calls with the identical trimmed query
return identical records; the model is invoked exactly once (by the first call only);
the second call is a cache hit whose response carries `cached = true` and replays the
cached `generation_time`; each call performs exactly one cache read, and only the first
(miss) call performs a cache write and a model invocation. -/
theorem c4_cache_idempotence_when_enabled (m : Model) (st : AppState)
    (raw text : String) (gt : Nat) (parsed : ParsedQuery)
    (hq : pyStrip raw ≠ "")
    (hen : st.cache.redis_enabled = true)
    (hmiss : QueryCache.get st.cache (pyStrip raw) = none)
    (hm : m (combined_prompt (pyStrip raw)) = .ok (text, gt))
    (hp : pipeline_after_generate (pyStrip raw) text = .ok parsed) :
    ∃ st1 : AppState,
      parse_query m st raw =
        (.ok ⟨gt, parsed, pyStrip raw, false⟩, st1, ⟨1, 1, 1⟩) ∧
      parse_query m st1 raw =
        (.ok ⟨gt, parsed, pyStrip raw, true⟩, st1, ⟨1, 0, 0⟩) := by
  refine ⟨{ cache := { st.cache with
      store := insertReplace st.cache.store ("query:" ++ pyStrip raw)
        (⟨gt, parsed, pyStrip raw, false⟩, 3600) }, llm_loaded := true }, ?_, ?_⟩
  · rw [parse_query, if_neg hq, hmiss, hm]
    dsimp only
    rw [hp]
    dsimp only
    simp only [QueryCache.set, hen, if_true]
  · rw [parse_query, if_neg hq]
    have hget : QueryCache.get
        { redis_enabled := st.cache.redis_enabled,
          store := insertReplace st.cache.store ("query:" ++ pyStrip raw)
            (⟨gt, parsed, pyStrip raw, false⟩, 3600) } (pyStrip raw) =
        some ⟨gt, parsed, pyStrip raw, false⟩ := by
      rw [QueryCache.get, hen, lookupKV_insertReplace]
      rfl
    rw [hget]

/-- Witness for the amended C4 with an enabled empty cache and a deterministic model. -/
theorem c4_cache_idempotence_when_enabled_witness :
    pyStrip "wooden chair" ≠ "" ∧
    pipeline_after_generate (pyStrip "wooden chair")
      "\x7b\"item_type\": \"chair\", \"material\": null, \"color\": null\x7d" =
      .ok ⟨some "chair", none, none⟩ ∧
    ∃ st1 : AppState,
      parse_query demoModel enabledEmptyState "wooden chair" =
        (.ok ⟨7, ⟨some "chair", none, none⟩, pyStrip "wooden chair", false⟩, st1, ⟨1, 1, 1⟩) ∧
      parse_query demoModel st1 "wooden chair" =
        (.ok ⟨7, ⟨some "chair", none, none⟩, pyStrip "wooden chair", true⟩, st1, ⟨1, 0, 0⟩) :=
  ⟨by decide, rfl, c4_cache_idempotence_when_enabled demoModel enabledEmptyState
    "wooden chair" "\x7b\"item_type\": \"chair\", \"material\": null, \"color\": null\x7d" 7
    ⟨some "chair", none, none⟩ (by decide) rfl rfl rfl rfl⟩

/-- Claim C5: a query that is empty after trimming is rejected with the 400 client error
`"Query cannot be empty"` before any cache or model interaction: the state is returned
unchanged and all three effect counters are zero. -/
theorem c5_empty_query_client_error (m : Model) (st : AppState) (raw : String)
    (h : pyStrip raw = "") :
    parse_query m st raw = (.clientError "Query cannot be empty", st, ⟨0, 0, 0⟩) := by
  simp [parse_query, h]

/-- Witness for C5 at the whitespace-only query of the spec. -/
theorem c5_empty_query_client_error_witness :
    pyStrip "   " = "" ∧
    parse_query demoModel enabledEmptyState "   " =
      (.clientError "Query cannot be empty", enabledEmptyState, ⟨0, 0, 0⟩) :=
  ⟨by decide, c5_empty_query_client_error demoModel enabledEmptyState "   " (by decide)⟩

/-- Claim C6: on a cache miss, if the model invocation raises, the orchestrator performs
exactly one model invocation (no retry), surfaces the 500 server error carrying the
original failure message, performs no cache write, and leaves the cache state unchanged
(only the lazily loaded model flag changes). -/
theorem c6_model_failure_no_retry_no_cache_write (m : Model) (st : AppState)
    (raw e : String)
    (hq : pyStrip raw ≠ "")
    (hmiss : QueryCache.get st.cache (pyStrip raw) = none)
    (hm : m (combined_prompt (pyStrip raw)) = .error e) :
    parse_query m st raw =
      (.serverError ("Error processing query: " ++ e),
        { st with llm_loaded := true }, ⟨1, 0, 1⟩) := by
  simp [parse_query, hq, hmiss, hm]

/-- Witness for C6 with a model oracle that raises. -/
theorem c6_model_failure_no_retry_no_cache_write_witness :
    pyStrip "a chair" ≠ "" ∧
    parse_query failingModel enabledEmptyState "a chair" =
      (.serverError ("Error processing query: " ++ "CUDA out of memory"),
        { enabledEmptyState with llm_loaded := true }, ⟨1, 0, 1⟩) :=
  ⟨by decide, c6_model_failure_no_retry_no_cache_write failingModel enabledEmptyState
    "a chair" "CUDA out of memory" (by decide) rfl rfl⟩

/-- Claim C7: on `'noise noise \x7b"item_type": "chair"\x7d trailing noise'`, stage 1's
whole-text parse fails, stage 2's non-greedy bracket scan extracts the substring from
the first opening brace to the earliest later closing brace, that substring parses to
the single-key object, and the field loop fills material and color with `None`. -/
theorem c7_stage2_bracket_scan_extraction :
    (json_loads c7text = .error "Expecting value") ∧
    (re_search_brace c7text = some "\x7b\"item_type\": \"chair\"\x7d") ∧
    (json_loads "\x7b\"item_type\": \"chair\"\x7d" =
      .ok (.dict [("item_type", .str "chair")])) ∧
    (parse_and_normalize c7text =
      .ok (.dict [("item_type", .str "chair"), ("material", .null), ("color", .null)])) :=
  ⟨rfl, rfl, rfl, rfl⟩

/-- Claim C8: on `"\x7bitem_type: 'sofa', color: 'red'\x7d"`, stage 1 fails, stage 2
extracts the whole braced text which again fails to parse, and stage 3 repairs it
(single quotes to double quotes, bare keys quoted before the colon), re-runs the bracket
scan and parses, yielding sofa/red with material filled as `None`. -/
theorem c8_stage3_quote_and_key_repair :
    (json_loads c8text = .error "Expecting property name enclosed in double quotes") ∧
    (re_search_brace c8text = some c8text) ∧
    (String.mk (repairText c8text.data) =
      "\x7b\"item_type\": \"sofa\", \"color\": \"red\"\x7d") ∧
    (parse_and_normalize c8text =
      .ok (.dict [("item_type", .str "sofa"), ("color", .str "red"), ("material", .null)])) :=
  ⟨rfl, rfl, rfl, rfl⟩

/-- Claim C9: `generate` returns the decoded prompt followed by the generated
continuation, and `FURNITURE_PROMPT` itself contains literal example objects; hence for
every query and every generated continuation, the whole-text parse of the echoed text
fails (the text starts with the prompt's prose) and the non-greedy bracket scan stops at
the first example object inside the prompt, so the record handed onward (before edge
case overrides) is the constant shelving-unit/glass/null object, independent of the
model's actual answer. -/
theorem c9_prompt_echo_makes_parse_constant (query continuation : String) :
    parse_and_normalize (generate_response (combined_prompt query) continuation) =
      .ok (.dict [("item_type", .str "shelving unit"), ("material", .str "glass"),
                  ("color", .null)]) := by
  have hdata : (generate_response (combined_prompt query) continuation).data
      = promptPre.data ++ ('{' :: (firstExampleBody.data ++ ('}' ::
        (promptRest.data ++ ("\n\nQuery: \"".data ++ (query.data ++
          ("\"".data ++ continuation.data))))))) := by
    simp only [generate_response, combined_prompt, FURNITURE_PROMPT, String.data_append,
      List.append_assoc]
    rfl
  obtain ⟨tail, htail⟩ : ∃ t, promptPre.data = '\n' :: 'P' :: t := ⟨_, rfl⟩
  have h1 : json_loads (generate_response (combined_prompt query) continuation) =
      .error "Expecting value" := by
    rw [json_loads, hdata, htail, List.cons_append, List.cons_append]
    exact json_loads_list_startP _
  have h2 : extractBraceList (generate_response (combined_prompt query) continuation).data
      = some ('{' :: (firstExampleBody.data ++ ['}'])) := by
    rw [hdata, extractBraceList,
      afterBrace_append_cons _ _ (by decide : '{' ∉ promptPre.data)]
    rw [Option.some_bind, upToClose_append_cons _ _ (by decide : '}' ∉ firstExampleBody.data),
      Option.map_some']
  have h3 : re_search_brace (generate_response (combined_prompt query) continuation) =
      some (String.mk ('{' :: (firstExampleBody.data ++ ['}']))) := by
    rw [re_search_brace, h2, Option.map_some']
  rw [parse_and_normalize, parse_llm_json, h1, h3]
  rfl

/-- Claim C10: with `REDIS_ENABLED` unset or not lowercasing to "true", the constructed
cache is disabled; every `get` returns `None` and every `set` returns `False` leaving
the cache untouched; consequently every orchestrator request with a non-empty trimmed
query is a cache miss that invokes the model exactly once and leaves the cache state
unchanged — so repeated identical queries re-invoke the model every time. -/
theorem c10_cache_disabled_by_default (env : String → Option String) (connectOk : Bool)
    (h : pyLower ((env "REDIS_ENABLED").getD "false") ≠ "true") :
    (QueryCache.init env connectOk).redis_enabled = false ∧
    (∀ q, QueryCache.get (QueryCache.init env connectOk) q = none) ∧
    (∀ q r ex, QueryCache.set (QueryCache.init env connectOk) q r ex =
      (false, QueryCache.init env connectOk)) ∧
    (∀ (m : Model) (st : AppState) (raw : String),
      st.cache = QueryCache.init env connectOk → pyStrip raw ≠ "" →
      (parse_query m st raw).2.2.model_calls = 1 ∧
      (parse_query m st raw).2.1.cache = st.cache) := by
  have hinit : QueryCache.init env connectOk = { redis_enabled := false, store := [] } := by
    rw [QueryCache.init, if_neg h]
  refine ⟨by rw [hinit], fun q => by rw [hinit]; rfl, fun q r ex => by rw [hinit]; rfl, ?_⟩
  intro m st raw hst hq
  have hmiss : QueryCache.get st.cache (pyStrip raw) = none := by
    rw [hst, hinit]; rfl
  rw [parse_query, if_neg hq, hmiss]
  cases hm : m (combined_prompt (pyStrip raw)) with
  | error e => exact ⟨rfl, rfl⟩
  | ok tg =>
    cases tg with
    | mk text gt =>
      dsimp only
      cases hp : pipeline_after_generate (pyStrip raw) text with
      | error e => exact ⟨rfl, rfl⟩
      | ok parsed =>
        dsimp only
        refine ⟨rfl, ?_⟩
        simp only [QueryCache.set, hst, hinit]
        rfl

/-- Witness for C10 under the default environment. -/
theorem c10_cache_disabled_by_default_witness :
    (QueryCache.init (fun _ => none) true).redis_enabled = false ∧
    QueryCache.get (QueryCache.init (fun _ => none) true) "blue chair" = none ∧
    QueryCache.set (QueryCache.init (fun _ => none) true) "blue chair"
      ⟨7, ⟨none, none, none⟩, "blue chair", false⟩ 3600 =
      (false, QueryCache.init (fun _ => none) true) ∧
    (parse_query demoModel defaultEnvState "blue chair").2.2.model_calls = 1 ∧
    (parse_query demoModel defaultEnvState "blue chair").2.1.cache = defaultEnvState.cache := by
  have h := c10_cache_disabled_by_default (fun _ => none) true (by decide)
  have h4 := h.2.2.2 demoModel defaultEnvState "blue chair" rfl (by decide)
  exact ⟨h.1, h.2.1 "blue chair",
    h.2.2.1 "blue chair" ⟨7, ⟨none, none, none⟩, "blue chair", false⟩ 3600, h4.1, h4.2⟩
